import Mathlib

/-!
Shallow embedding of the idle_rpg game core (src/src/game/index.js,
src/src/game/PhysicsEngine.js, src/src/game/useGameLoop.js) and proofs of the
spec claims about it.  Real-number quantities of the JavaScript source are
modelled as rationals; the transcendental Math.sin is abstracted as an
arbitrary rational-valued function parameter (every IEEE double it can return
is a rational number).
-/

namespace IdleRpg

/-- PLATFORM_LEVELS keys (PhysicsEngine.js): the four fixed height tiers. -/
inductive Level where
  | ground
  | level1
  | level2
  | level3
deriving DecidableEq, Repr

/-- PLATFORM_LEVELS values (PhysicsEngine.js lines 14-19). -/
def Level.height : Level → ℚ
  | .ground => 0
  | .level1 => 180
  | .level2 => 360
  | .level3 => 540

/-- Game-side platform record as built by generatePlatformsAndLadders. -/
structure Platform where
  id : ℕ
  worldX : ℚ
  height : ℚ
  width : ℚ
  level : Level
deriving DecidableEq, Repr

/-- Game-side ladder record as built by generatePlatformsAndLadders:
worldX, vertical extent, and the platform-connectivity metadata. -/
structure Ladder where
  id : ℕ
  worldX : ℚ
  bottomHeight : ℚ
  topHeight : ℚ
  topPlatformId : Option ℕ
  bottomPlatformId : Option ℕ
  topLevel : Level
  bottomLevel : Level
deriving DecidableEq, Repr

/-- A 2d point (player position, velocity vectors). -/
structure Vec2 where
  x : ℚ
  y : ℚ
deriving DecidableEq, Repr

/-- The geometric content of a platform: everything the generator decides
for it except the run-dependent id drawn from the global counter. -/
def Platform.layout (p : Platform) : ℚ × ℚ × ℚ × Level :=
  (p.worldX, p.height, p.width, p.level)

/-- The geometric content of a ladder: position and vertical extent, without
the run-dependent ladder id and platform-id references. -/
def Ladder.layout (l : Ladder) : ℚ × ℚ × ℚ × Level × Level :=
  (l.worldX, l.bottomHeight, l.topHeight, l.topLevel, l.bottomLevel)

end IdleRpg

namespace IdleRpg.Phys

/-- A Matter.js rectangular dynamic body: position is the centre in Matter
coordinates (y grows downward), bounds derived from width/height. -/
structure Body where
  posX : ℚ
  posY : ℚ
  velX : ℚ
  velY : ℚ
  width : ℚ
  height : ℚ
deriving DecidableEq, Repr

/-- bounds.min.y of a Matter rectangle body. -/
def Body.boundsMinY (b : Body) : ℚ := b.posY - b.height / 2

/-- bounds.max.y of a Matter rectangle body (the bottom edge, since Matter
y grows downward). -/
def Body.boundsMaxY (b : Body) : ℚ := b.posY + b.height / 2

/-- bounds.min.x of a Matter rectangle body. -/
def Body.boundsMinX (b : Body) : ℚ := b.posX - b.width / 2

/-- bounds.max.x of a Matter rectangle body. -/
def Body.boundsMaxX (b : Body) : ℚ := b.posX + b.width / 2

/-- State of the PhysicsEngine class: the player body (if created), the
platform map (insertion-ordered, keyed by platform id), the bodies present
in the Matter world composite, the ladder side list, and the climbing flag. -/
structure Engine where
  player : Option Body
  platforms : List (ℕ × Body)
  worldPlatformIds : List ℕ
  ladders : List Ladder
  playerClimbing : Bool
deriving DecidableEq, Repr

/-- PhysicsEngine.createPlatform(id, x, y, width, height): the body centre is
placed so that the top surface sits at game height y (Matter y = -y). -/
def platformBody (x y width : ℚ) (height : ℚ := 20) : Body :=
  { posX := x + width / 2, posY := -y + height / 2
    velX := 0, velY := 0, width := width, height := height }

/-- PhysicsEngine.isOnPlatform (PhysicsEngine.js lines 194-218). -/
def Engine.isOnPlatform (e : Engine) (body : Body) : Bool :=
  let playerFeetY := -body.boundsMaxY
  let bodyX := body.posX
  let bodyWidth := body.boundsMaxX - body.boundsMinX
  e.platforms.any fun kv =>
    let platform := kv.2
    let platformSurfaceY := -platform.boundsMinY
    let platLeft := platform.boundsMinX
    let platRight := platform.boundsMaxX
    decide (platformSurfaceY - 10 ≤ playerFeetY) &&
      decide (playerFeetY ≤ platformSurfaceY + 20) &&
      decide (platLeft < bodyX + bodyWidth / 2) &&
      decide (bodyX - bodyWidth / 2 < platRight)

/-- PhysicsEngine.isGrounded (PhysicsEngine.js lines 183-192): false while
climbing; otherwise ground-height test or platform test. -/
def Engine.isGrounded (e : Engine) (body : Body) : Bool :=
  if e.playerClimbing then false
  else
    let bodyHeight := body.boundsMaxY - body.boundsMinY
    let gameY := -body.posY - bodyHeight / 2
    decide (gameY ≤ 5) || e.isOnPlatform body

/-- Height of the body feet above ground in game coordinates, as computed
inside PhysicsEngine.isGrounded. -/
def Body.gameY (b : Body) : ℚ := -b.posY - (b.boundsMaxY - b.boundsMinY) / 2

/-- PhysicsEngine.getPlayerVelocity: zero vector when no player body exists. -/
def Engine.getPlayerVelocity (e : Engine) : Vec2 :=
  match e.player with
  | none => { x := 0, y := 0 }
  | some player => { x := player.velX, y := player.velY }

/-- PhysicsEngine.getPlayerPosition: zero vector when no player body exists,
otherwise the Matter position converted to game coordinates. -/
def Engine.getPlayerPosition (e : Engine) : Vec2 :=
  match e.player with
  | none => { x := 0, y := 0 }
  | some player =>
    let height := player.boundsMaxY - player.boundsMinY
    { x := player.posX, y := -player.posY - height / 2 }

/-- PhysicsEngine.isPlayerFalling: false when no player body exists. -/
def Engine.isPlayerFalling (e : Engine) : Bool :=
  match e.player with
  | none => false
  | some player => decide (player.velY > 1)

/-- PhysicsEngine.isPlayerJumping: false when no player body exists. -/
def Engine.isPlayerJumping (e : Engine) : Bool :=
  match e.player with
  | none => false
  | some player => decide (player.velY < -1)

/-- PhysicsEngine.isPlayerGrounded (PhysicsEngine.js lines 271-275): returns
true when no player body exists. -/
def Engine.isPlayerGrounded (e : Engine) : Bool :=
  match e.player with
  | none => true
  | some player => e.isGrounded player

/-- PhysicsEngine.removePlatform (PhysicsEngine.js lines 146-152): if the id
is present in the platform map, remove the body from the world composite and
delete the map entry; otherwise do nothing. -/
def Engine.removePlatform (e : Engine) (id : ℕ) : Engine :=
  match e.platforms.lookup id with
  | some _ =>
    { e with
      worldPlatformIds := e.worldPlatformIds.filter fun pid => pid != id
      platforms := e.platforms.filter fun kv => kv.1 != id }
  | none => e

/-- PhysicsEngine.removeLadder (PhysicsEngine.js lines 159-161): filter the
ladder list by id. -/
def Engine.removeLadder (e : Engine) (id : ℕ) : Engine :=
  { e with ladders := e.ladders.filter fun l => l.id != id }

/-- An engine in which no player body has been created. -/
def emptyEngine : Engine :=
  { player := none, platforms := [], worldPlatformIds := []
    ladders := [], playerClimbing := false }

end IdleRpg.Phys

namespace IdleRpg

/-- The delta cap of useGameLoop.js line 19: 16.667 milliseconds. -/
def deltaCap : ℚ := 16667 / 1000

/-- One iteration of the useGameLoop callback (useGameLoop.js lines 13-22):
given the previous lastTime and the current frame time, it computes
delta = now - lastTime, stores now as the new lastTime, and invokes the game
update once with min(delta, 16.667).  Returns (new lastTime, delta passed). -/
def loopStep (lastTime now : ℚ) : ℚ × ℚ :=
  (now, min (now - lastTime) deltaCap)

/-- The sequence of deltas passed to the game update when the loop runs over
a list of frame timestamps, threading lastTime through loopStep.  One update
is invoked per frame; the excess over the cap is dropped, never replayed. -/
def loopDeltas (lastTime : ℚ) : List ℚ → List ℚ
  | [] => []
  | now :: rest =>
    let s := loopStep lastTime now
    s.2 :: loopDeltas s.1 rest

/-- xpForLevel (index.js line 331): floor(100 * 1.5 ^ (level - 1)). -/
def xpForLevel (level : ℤ) : ℤ := ⌊(100 : ℚ) * (3 / 2 : ℚ) ^ (level - 1)⌋

/-- maxHealth recomputation in the level-up loop (index.js line 777):
floor(100 * 1.1 ^ (level - 1)). -/
def maxHealthForLevel (level : ℤ) : ℤ := ⌊(100 : ℚ) * (11 / 10 : ℚ) ^ (level - 1)⌋

/-- baseDamage recomputation in the level-up loop (index.js line 778):
floor(10 * 1.08 ^ (level - 1)). -/
def baseDamageForLevel (level : ℤ) : ℤ := ⌊(10 : ℚ) * (27 / 25 : ℚ) ^ (level - 1)⌋

/-- The mutable locals of the level-up loop in setCharacter
(index.js lines 767-779). -/
structure LevelState where
  xp : ℤ
  level : ℤ
  xpToNext : ℤ
  maxHealth : ℤ
  baseDamage : ℤ
deriving DecidableEq, Repr

/-- The while loop of index.js lines 773-779: while xp >= xpToNext, subtract,
increment level, and recompute xpToNext/maxHealth/baseDamage.  Fuel-indexed;
with fuel at least the number of iterations the result is the loop's exit
state (every fully evaluated run leaves xp < xpToNext, so further fuel does
not change it). -/
def levelLoop : ℕ → LevelState → LevelState
  | 0, s => s
  | fuel + 1, s =>
    if s.xpToNext ≤ s.xp then
      levelLoop fuel
        { xp := s.xp - s.xpToNext
          level := s.level + 1
          xpToNext := xpForLevel (s.level + 1)
          maxHealth := maxHealthForLevel (s.level + 1)
          baseDamage := baseDamageForLevel (s.level + 1) }
    else s

/-- Character stats record (the fields touched by the kill-reward update of
index.js lines 766-791). -/
structure CharStats where
  xp : ℤ
  level : ℤ
  xpToNext : ℤ
  maxHealth : ℤ
  health : ℤ
  baseDamage : ℤ
  gold : ℤ
deriving DecidableEq, Repr

/-- The setCharacter updater of index.js lines 766-791: add the kill XP, run
the level-up loop, and rebuild the record; health is replaced by the new
maxHealth exactly when newLevel > prev.level. -/
def applyKillReward (prev : CharStats) (xpReward goldReward : ℤ) (fuel : ℕ) :
    CharStats :=
  let s := levelLoop fuel
    { xp := prev.xp + xpReward, level := prev.level, xpToNext := prev.xpToNext
      maxHealth := prev.maxHealth, baseDamage := prev.baseDamage }
  { xp := s.xp
    level := s.level
    xpToNext := s.xpToNext
    maxHealth := s.maxHealth
    health := if prev.level < s.level then s.maxHealth else prev.health
    baseDamage := s.baseDamage
    gold := prev.gold + goldReward }

/-- Enemy record of index.js (the fields of the spawnEnemy literal at
lines 680-697 that the modelled slice reads). -/
structure Enemy where
  id : ℕ
  typeKey : String
  health : ℤ
  maxHealth : ℤ
  worldX : ℚ
  platformHeight : ℚ
  platformLevel : Level
  platformId : Option ℕ
  hit : Bool
  dying : Bool
  patrolDirection : ℤ
  isPatrolling : Bool
  animationFrame : ℕ
  animationTime : ℚ
  xpReward : ℤ
  goldReward : ℤ
  speed : ℚ
deriving DecidableEq, Repr

/-- The in-range filter predicate of attackEnemy (index.js lines 712-725):
dying enemies excluded; signed horizontal distance ahead of the facing
direction must be at most attackRange and at least -50; vertical distance at
most 50. -/
def attackInRange (facingRight : Bool) (playerPos : Vec2) (attackRange : ℚ)
    (e : Enemy) : Bool :=
  if e.dying then false
  else
    let horizontalDist :=
      if facingRight then e.worldX - playerPos.x else playerPos.x - e.worldX
    if horizontalDist > attackRange || horizontalDist < -50 then false
    else if |e.platformHeight - playerPos.y| > 50 then false
    else true

/-- The hit set computed on an attack event (index.js line 712). -/
def attackHitSet (facingRight : Bool) (playerPos : Vec2) (attackRange : ℚ)
    (enemies : List Enemy) : List Enemy :=
  enemies.filter (attackInRange facingRight playerPos attackRange)

/-- AI_STATE enum (index.js lines 46-50). -/
inductive AIState where
  | movingRight
  | movingToEnemy
  | attackingEnemy
deriving DecidableEq, Repr

/-- The persisted AI state: machine state plus the locked target id
(aiStateRef in index.js line 380). -/
structure AISnapshot where
  state : AIState
  targetId : Option ℕ
deriving DecidableEq, Repr

/-- A key-intent snapshot (the keys object of computeNavigationKeys). -/
structure Keys where
  left : Bool
  right : Bool
  up : Bool
  down : Bool
  attack : Bool
deriving DecidableEq, Repr

/-- The keys emitted while patrolling right. -/
def patrolKeys : Keys :=
  { left := false, right := true, up := false, down := false, attack := false }

/-- The keys emitted while attacking. -/
def attackKeys : Keys :=
  { left := false, right := false, up := false, down := false, attack := true }

/-- The value returned by computeAIState: next state, target id, and key
overrides. -/
structure AIResult where
  state : AIState
  targetId : Option ℕ
  keys : Keys
deriving DecidableEq, Repr

/-- findNearestEnemy (index.js lines 53-62): filter out dying enemies, sort
by weighted distance |dx| + |dheight| * 5 (stable sort, as in the JS engine),
and take the first element, or null for an empty list. -/
def findNearestEnemy (enemies : List Enemy) (playerPos : Vec2) : Option Enemy :=
  let dist := fun (e : Enemy) =>
    |e.worldX - playerPos.x| + |e.platformHeight - playerPos.y| * 5
  ((enemies.filter fun e => !e.dying).mergeSort
    fun a b => decide (dist a ≤ dist b)).head?

/-- isInAttackRange (index.js lines 65-73): false while climbing; otherwise
same level (|dheight| < 50) and |dx| at most attackRange * 0.8. -/
def isInAttackRange (playerPos : Vec2) (target : Enemy) (attackRange : ℚ)
    (isClimbing : Bool) : Bool :=
  if isClimbing then false
  else
    decide (|target.platformHeight - playerPos.y| < 50) &&
      decide (|target.worldX - playerPos.x| ≤ attackRange * (4 / 5))

/-- getPlayerCurrentLevel (index.js lines 76-97): the level whose height is
closest to playerY, the earlier of the fixed list winning ties. -/
def getPlayerCurrentLevel (playerY : ℚ) : Level :=
  let levels : List Level := [.ground, .level1, .level2, .level3]
  (levels.foldl
    (fun closest level =>
      let d := |playerY - level.height|
      if d < closest.2 then (level, d) else closest)
    (Level.ground, |playerY - Level.ground.height|)).1

/-- Index of a level in the levelOrder array of index.js line 146. -/
def levelIdx : Level → ℕ
  | .ground => 0
  | .level1 => 1
  | .level2 => 2
  | .level3 => 3

/-- The ladder-accessibility test shared by both filters in findLadderToTarget
(index.js lines 109, 155). -/
def ladderAccessible (playerPos : Vec2) (l : Ladder) : Bool :=
  decide (l.bottomHeight - 10 ≤ playerPos.y) &&
    decide (playerPos.y ≤ l.topHeight + 10)

/-- findLadderToTarget (index.js lines 100-180): first a ladder that directly
connects to the target platform (by platform id, or by level name when the id
is unknown), then a ladder making progress toward the target level in the
ordered level sequence; among candidates the horizontally nearest wins.  The
indexOf calls of the source always succeed (levelIdx is total), so the
early return on index -1 is unreachable and not modelled. -/
def findLadderToTarget (playerPos : Vec2) (target : Enemy)
    (ladders : List Ladder) : Option Ladder :=
  let needToGoUp := decide (playerPos.y < target.platformHeight)
  let targetLevel := target.platformLevel
  let directLadders := ladders.filter fun l =>
    ladderAccessible playerPos l &&
      (if needToGoUp then
        match target.platformId with
        | some pid => l.topPlatformId == some pid
        | none =>
          if targetLevel = Level.ground then false
          else l.topLevel == targetLevel
      else
        match target.platformId with
        | some pid => l.bottomPlatformId == some pid
        | none =>
          if targetLevel = Level.ground then l.bottomLevel == Level.ground
          else l.bottomLevel == targetLevel)
  match (directLadders.mergeSort fun a b =>
      decide (|a.worldX - playerPos.x| ≤ |b.worldX - playerPos.x|)).head? with
  | some l => some l
  | none =>
    let playerLevelIndex := levelIdx (getPlayerCurrentLevel playerPos.y)
    let targetLevelIndex := levelIdx targetLevel
    let progressLadders := ladders.filter fun l =>
      ladderAccessible playerPos l &&
        (if needToGoUp then
          decide (playerLevelIndex < levelIdx l.topLevel) &&
            decide (levelIdx l.topLevel ≤ targetLevelIndex)
        else
          decide (levelIdx l.bottomLevel < playerLevelIndex) &&
            decide (targetLevelIndex ≤ levelIdx l.bottomLevel))
    (progressLadders.mergeSort fun a b =>
      decide (|a.worldX - playerPos.x| ≤ |b.worldX - playerPos.x|)).head?

/-- computeNavigationKeys (index.js lines 183-230). -/
def computeNavigationKeys (playerPos : Vec2) (target : Enemy)
    (isClimbing : Bool) (ladders : List Ladder) : Keys :=
  let base : Keys :=
    { left := false, right := false, up := false, down := false, attack := false }
  let dx := target.worldX - playerPos.x
  let dy := target.platformHeight - playerPos.y
  let absDy := |dy|
  let isSameLevel :=
    if isClimbing then
      decide (absDy < 5) && decide (target.platformHeight - 2 ≤ playerPos.y)
    else decide (absDy < 50)
  if isSameLevel then
    if dx > 0 then { base with right := true } else { base with left := true }
  else if isClimbing then
    if dy > 0 then { base with up := true } else { base with down := true }
  else
    match findLadderToTarget playerPos target ladders with
    | some usefulLadder =>
      let ladderDx := usefulLadder.worldX - playerPos.x
      if |ladderDx| < 10 then
        if dy > 0 then { base with up := true } else { base with down := true }
      else
        if ladderDx > 0 then { base with right := true }
        else { base with left := true }
    | none =>
      if dx > 0 then { base with right := true } else { base with left := true }

/-- computeAIState (index.js lines 233-328): the AI finite state machine. -/
def computeAIState (prev : AISnapshot) (enemies : List Enemy)
    (playerPos : Vec2) (attackRange : ℚ) (isClimbing : Bool)
    (ladders : List Ladder) : AIResult :=
  let lockedTarget :=
    match prev.targetId with
    | some t => enemies.find? fun e => e.id == t && !e.dying
    | none => none
  match prev.state with
  | .movingRight =>
    match findNearestEnemy enemies playerPos with
    | some nearestEnemy =>
      { state := .movingToEnemy, targetId := some nearestEnemy.id
        keys := computeNavigationKeys playerPos nearestEnemy isClimbing ladders }
    | none => { state := .movingRight, targetId := none, keys := patrolKeys }
  | .movingToEnemy =>
    match lockedTarget with
    | none => { state := .movingRight, targetId := none, keys := patrolKeys }
    | some t =>
      if isInAttackRange playerPos t attackRange isClimbing then
        { state := .attackingEnemy, targetId := some t.id, keys := attackKeys }
      else
        { state := .movingToEnemy, targetId := some t.id
          keys := computeNavigationKeys playerPos t isClimbing ladders }
  | .attackingEnemy =>
    match lockedTarget with
    | none => { state := .movingRight, targetId := none, keys := patrolKeys }
    | some t =>
      if !isInAttackRange playerPos t attackRange isClimbing then
        { state := .movingToEnemy, targetId := some t.id
          keys := computeNavigationKeys playerPos t isClimbing ladders }
      else
        { state := .attackingEnemy, targetId := some t.id, keys := attackKeys }

/-- seededRandom (index.js lines 338-341): x = Math.sin(seed * 9999) * 10000,
return x - floor(x).  Math.sin is abstracted as the function parameter sine
(every IEEE double it returns is a rational), so the result is a pure
function of the seed once the sine table is fixed. -/
def seededRandom (sine : ℤ → ℚ) (seed : ℤ) : ℚ :=
  let x := sine (seed * 9999) * 10000
  x - ⌊x⌋

/-- First generation pass of generatePlatformsAndLadders
(index.js lines 525-543): for chunk and level index i, spawn a platform with
probability 0.7 - i * 0.15, at a seeded width in [150, 300] and a seeded
x-offset inside the 400-wide chunk.  The counter models the global
generateId counter; a created platform takes id cnt + 1. -/
def genPlat (rnd : ℤ → ℚ) (chunk : ℤ) (i : ℕ) (lvl : Level) (cnt : ℕ) :
    Option Platform × ℕ :=
  if rnd (chunk * 17 + i * 31) < 7 / 10 - (i : ℚ) * (15 / 100) then
    let platformWidth := 150 + rnd (chunk * 23 + i * 41) * (300 - 150)
    let xOffset := rnd (chunk * 37 + i * 53) * (400 - platformWidth)
    (some { id := cnt + 1, worldX := chunk * 400 + xOffset
            height := lvl.height, width := platformWidth, level := lvl }, cnt + 1)
  else (none, cnt)

/-- Second generation pass for one level (index.js lines 547-622): if the
level below is ground, always place a ground ladder across the platform; else
if the lower platform exists and overlaps by at least 40, place a ladder in
the overlap; otherwise place a fallback ladder straight from ground. -/
def genChunkLadder (rnd : ℤ → ℚ) (chunk : ℤ) (i : ℕ) (lvl lowerLvl : Level)
    (pOpt lowerOpt : Option Platform) (cnt : ℕ) : List Ladder × ℕ :=
  match pOpt with
  | none => ([], cnt)
  | some platform =>
    let fallback : Ladder :=
      { id := cnt + 1
        worldX := platform.worldX +
          platform.width * (3 / 10 + rnd (chunk * 89 + i * 97) * (4 / 10))
        bottomHeight := Level.ground.height, topHeight := lvl.height
        topPlatformId := some platform.id, bottomPlatformId := none
        topLevel := lvl, bottomLevel := .ground }
    if lowerLvl = Level.ground then
      ([{ id := cnt + 1
          worldX := platform.worldX +
            platform.width * (2 / 10 + rnd (chunk * 59 + i * 67) * (6 / 10))
          bottomHeight := Level.ground.height, topHeight := lvl.height
          topPlatformId := some platform.id, bottomPlatformId := none
          topLevel := lvl, bottomLevel := .ground }], cnt + 1)
    else
      match lowerOpt with
      | some lowerPlatform =>
        let overlapStart := max platform.worldX lowerPlatform.worldX
        let overlapEnd := min (platform.worldX + platform.width)
          (lowerPlatform.worldX + lowerPlatform.width)
        if 40 ≤ overlapEnd - overlapStart then
          let overlapWidth := overlapEnd - overlapStart
          ([{ id := cnt + 1
              worldX := overlapStart +
                overlapWidth * (2 / 10 + rnd (chunk * 59 + i * 67) * (6 / 10))
              bottomHeight := lowerLvl.height, topHeight := lvl.height
              topPlatformId := some platform.id
              bottomPlatformId := some lowerPlatform.id
              topLevel := lvl, bottomLevel := lowerLvl }], cnt + 1)
        else ([fallback], cnt + 1)
      | none => ([fallback], cnt + 1)

/-- One chunk of generatePlatformsAndLadders (index.js lines 517-625):
platform pass for level1..level3, then ladder pass, threading the id
counter.  Returns (platforms, ladders, counter). -/
def genChunk (rnd : ℤ → ℚ) (chunk : ℤ) (cnt : ℕ) :
    List Platform × List Ladder × ℕ :=
  let g1 := genPlat rnd chunk 0 .level1 cnt
  let g2 := genPlat rnd chunk 1 .level2 g1.2
  let g3 := genPlat rnd chunk 2 .level3 g2.2
  let l1 := genChunkLadder rnd chunk 0 .level1 .ground g1.1 none g3.2
  let l2 := genChunkLadder rnd chunk 1 .level2 .level1 g2.1 g1.1 l1.2
  let l3 := genChunkLadder rnd chunk 2 .level3 .level2 g3.1 g2.1 l2.2
  (g1.1.toList ++ g2.1.toList ++ g3.1.toList, l1.1 ++ l2.1 ++ l3.1, l3.2)

/-- The chunk loop of generatePlatformsAndLadders: generate each chunk of the
given index list in order, accumulating platforms and ladders. -/
def genChunks (rnd : ℤ → ℚ) : List ℤ → ℕ → List Platform × List Ladder × ℕ
  | [], cnt => ([], [], cnt)
  | c :: rest, cnt =>
    let g := genChunk rnd c cnt
    let r := genChunks rnd rest g.2.2
    (g.1 ++ r.1, g.2.1 ++ r.2.1, r.2.2)

/-- The platform half of the periodic cleanup (index.js lines 828-835):
keep exactly the platforms with worldX at least the unrender limit. -/
def cleanupPlatforms (unrenderLimit : ℚ) (ps : List Platform) : List Platform :=
  ps.filter fun p => decide (p.worldX ≥ unrenderLimit)

/-- The ladder half of the periodic cleanup (index.js lines 838-845). -/
def cleanupLadders (unrenderLimit : ℚ) (ls : List Ladder) : List Ladder :=
  ls.filter fun l => decide (l.worldX ≥ unrenderLimit)

/-- Fuel-indexed ladder-path reachability from ground: platform pid is
reachable if some ladder tops out at pid and either starts at ground
(bottomPlatformId null) or starts at a platform that is present in the
platform list and itself reachable. -/
def reachableB (plats : List Platform) (lads : List Ladder) :
    ℕ → ℕ → Bool
  | 0, _ => false
  | fuel + 1, pid =>
    lads.any fun l =>
      l.topPlatformId == some pid &&
        match l.bottomPlatformId with
        | none => true
        | some q => (plats.any fun p => p.id == q) && reachableB plats lads fuel q

/-- A platform id has a ladder path from ground in the given world. -/
def reachableFromGround (plats : List Platform) (lads : List Ladder)
    (pid : ℕ) : Prop :=
  ∃ fuel, reachableB plats lads fuel pid = true

/-- Enemy type stats (ENEMY_TYPES entries in components/Enemy.jsx; only the
fields the modelled slice consumes). -/
structure EnemyType where
  baseHealth : ℤ
  xpReward : ℤ
  goldReward : ℤ
  speed : ℚ
  preferredLevels : List Level
deriving DecidableEq, Repr

/-- MAX_ENEMIES (index.js line 41). -/
def MAX_ENEMIES : ℕ := 10

/-- spawnEnemy (index.js lines 636-700).  The Math.random() draws are the
parameters r1-r4 (type pick, level pick, side pick, position pick); the
ENEMY_TYPES table is the parameter types; physicsPresent models the
physicsRef null check.  Returns some of the resulting enemy list, or none
when the table lookup fails (the source would throw on
type.preferredLevels). -/
def spawnEnemy (types : String → Option EnemyType) (physicsPresent : Bool)
    (enemies : List Enemy) (playerPosX scrollOffset width : ℚ)
    (platforms : List Platform) (r1 r2 r3 r4 : ℚ) (newId : ℕ) :
    Option (List Enemy) :=
  if enemies.length ≥ MAX_ENEMIES then some enemies
  else if !physicsPresent then some enemies
  else
    let distanceProgress : ℤ := ⌊playerPosX / 1000⌋
    let availableTypes : List String :=
      if 1 ≤ distanceProgress then ["wolf", "bear"] else ["wolf"]
    match availableTypes.get? (⌊r1 * availableTypes.length⌋).toNat with
    | none => none
    | some typeKey =>
      match types typeKey with
      | none => none
      | some t =>
        match t.preferredLevels.get? (⌊r2 * t.preferredLevels.length⌋).toNat with
        | none => none
        | some preferredLevel =>
          let spawnFromRight := decide (r3 > 3 / 10)
          let spawnX0 :=
            if spawnFromRight then scrollOffset + width + 100
            else scrollOffset - 100
          let healthMultiplier : ℚ := 1 + (distanceProgress : ℚ) * (2 / 10)
          let newEnemy : ℚ → Option ℕ → Enemy := fun spawnX spawnPlatformId =>
            { id := newId
              typeKey := typeKey
              health := ⌊(t.baseHealth : ℚ) * healthMultiplier⌋
              maxHealth := ⌊(t.baseHealth : ℚ) * healthMultiplier⌋
              worldX := spawnX
              platformHeight := preferredLevel.height
              platformLevel := preferredLevel
              platformId := spawnPlatformId
              hit := false
              dying := false
              patrolDirection := if spawnFromRight then -1 else 1
              isPatrolling := !(preferredLevel = Level.ground)
              animationFrame := 0
              animationTime := 0
              xpReward := t.xpReward
              goldReward := t.goldReward
              speed := t.speed }
          match preferredLevel,
            platforms.find? (fun p =>
              p.level == preferredLevel &&
                decide (|p.worldX + p.width / 2 - spawnX0| < 400)) with
          | Level.ground, _ => some (enemies ++ [newEnemy spawnX0 none])
          | _, some nearbyPlatform =>
            let minX := nearbyPlatform.worldX + 20
            let maxX := nearbyPlatform.worldX + nearbyPlatform.width - 20
            some (enemies ++
              [newEnemy (minX + r4 * (maxX - minX)) (some nearbyPlatform.id)])
          | _, none => some enemies

/-- A ground-level live enemy with the given id and world x, used as concrete
input in several witnesses. -/
def enemyAt (id : ℕ) (x : ℚ) : Enemy :=
  { id := id, typeKey := "wolf", health := 15, maxHealth := 15, worldX := x
    platformHeight := 0, platformLevel := .ground, platformId := none
    hit := false, dying := false, patrolDirection := 1, isPatrolling := false
    animationFrame := 0, animationTime := 0, xpReward := 10, goldReward := 5
    speed := 50 }

/-- Ten live enemies: a full population for the spawn cap. -/
def tenEnemies : List Enemy := (List.range 10).map fun i => enemyAt i 0

/-- The level-up loop entry state of the C2 claim: xp already includes the
kill reward (xp = 250, level = 1, xpToNext = 100). -/
def c2Start : LevelState :=
  { xp := 250, level := 1, xpToNext := 100, maxHealth := 100, baseDamage := 10 }

/-- The state in which the level-up loop actually stops when run from
c2Start. -/
def c2Final : LevelState :=
  { xp := 0, level := 3, xpToNext := 225, maxHealth := 121, baseDamage := 11 }

/-- A concrete admissible PRNG draw table (all values in [0, 1), as
seededRandom produces): chunk 1 spawns a level1 platform at x 400 of width
150 and a level2 platform at x 450 of width 150, overlapping by 100, and no
level3 platform. -/
def cexRnd : ℤ → ℚ := fun s =>
  if s = 90 then 1 / 5 else if s = 79 then 9 / 10 else 0

/-- The world surviving the periodic cleanup pass with unrender limit 440
applied to the chunk-1 generation under cexRnd. -/
def c1Survivors : List Platform × List Ladder :=
  (cleanupPlatforms 440 (genChunk cexRnd 1 0).1,
   cleanupLadders 440 (genChunk cexRnd 1 0).2.1)

/-- The level1 platform chunk 1 generates under cexRnd. -/
def c1FirstPlatform : Platform := ⟨1, 400, 180, 150, .level1⟩

/-- The level2 platform chunk 1 generates under cexRnd; the only platform
surviving the cleanup at limit 440. -/
def c1KeptPlatform : Platform := ⟨2, 450, 360, 150, .level2⟩

/-- The only ladder surviving that cleanup: its bottom platform (id 1) was
removed by the same pass. -/
def c1KeptLadder : Ladder := ⟨4, 470, 180, 360, some 2, some 1, .level2, .level1⟩

/-- Being within the landing tolerance band of a platform body (feet between
surface - 10 and surface + 20) while horizontally overlapping it: the
per-platform test applied inside isOnPlatform. -/
def Phys.nearPlatformSurface (body platform : Phys.Body) : Prop :=
  (-platform.boundsMinY - 10 ≤ -body.boundsMaxY ∧
    -body.boundsMaxY ≤ -platform.boundsMinY + 20) ∧
  (platform.boundsMinX < body.posX + (body.boundsMaxX - body.boundsMinX) / 2 ∧
    body.posX - (body.boundsMaxX - body.boundsMinX) / 2 < platform.boundsMaxX)

instance (b p : Phys.Body) : Decidable (Phys.nearPlatformSurface b p) := by
  unfold Phys.nearPlatformSurface; infer_instance

end IdleRpg

namespace IdleRpg

/-! ## Claim theorems -/

/-- C8: each iteration of the tick scheduler computes delta = now - lastTime
against the actual previous frame time, passes exactly one clamped delta
min(delta, 16.667) per frame to the game update, and never passes a delta
above the cap; excess time is dropped, not replayed. -/
theorem c8_tick_delta_clamped (lastTime : ℚ) (frames : List ℚ) :
    (loopDeltas lastTime frames).length = frames.length ∧
    (∀ d ∈ loopDeltas lastTime frames, d ≤ deltaCap) ∧
    loopDeltas lastTime frames =
      (frames.zip (lastTime :: frames)).map fun p => min (p.1 - p.2) deltaCap := by
  induction frames generalizing lastTime with
  | nil => simp [loopDeltas]
  | cons t rest ih =>
    obtain ⟨ih1, ih2, ih3⟩ := ih t
    refine ⟨by simp [loopDeltas, loopStep, ih1], ?_, ?_⟩
    · intro d hd
      simp only [loopDeltas, loopStep] at hd
      rcases List.mem_cons.mp hd with h | h
      · exact h ▸ min_le_right _ _
      · exact ih2 d h
    · simp [loopDeltas, loopStep, ih3]

/-- C8 witness: with lastTime 0 and a single frame at 100 ms, one delta is
emitted and it is the cap itself. -/
theorem c8_witness :
    (loopDeltas 0 [100]).length = 1 ∧ (16667 / 1000 : ℚ) ≤ deltaCap :=
  ⟨(c8_tick_delta_clamped 0 [100]).1,
    (c8_tick_delta_clamped 0 [100]).2.1 _
      (by norm_num [loopDeltas, loopStep, deltaCap, min_def])⟩

/-- Looking up a key in an association list from which every pair with that
key was filtered out yields nothing. -/
theorem lookup_filter_key_ne (l : List (ℕ × Phys.Body)) (id : ℕ) :
    (l.filter fun kv => kv.1 != id).lookup id = none := by
  induction l with
  | nil => simp
  | cons kv t ih =>
    obtain ⟨k, v⟩ := kv
    by_cases h : k = id
    · simpa [List.filter_cons, h] using ih
    · have h1 : (id == k) = false := beq_eq_false_iff_ne.mpr (Ne.symm h)
      simp [List.filter_cons, h, List.lookup, h1, ih]

/-- C9: removePlatform and removeLadder are idempotent; the second removal
of the same id finds nothing and leaves the engine state unchanged. -/
theorem c9_remove_idempotent (e : Phys.Engine) (pid lid : ℕ) :
    (e.removePlatform pid).removePlatform pid = e.removePlatform pid ∧
    (e.removeLadder lid).removeLadder lid = e.removeLadder lid := by
  constructor
  · cases h : e.platforms.lookup pid with
    | none => simp [Phys.Engine.removePlatform, h]
    | some b => simp [Phys.Engine.removePlatform, h, lookup_filter_key_ne]
  · simp [Phys.Engine.removeLadder, List.filter_filter]

/-- C4 (amended): queries on the engine with no player body return neutral
defaults and never raise: zero vectors for velocity and position, false for
isPlayerFalling and isPlayerJumping — but isPlayerGrounded defaults to true,
not false. -/
theorem c4_missing_body_defaults (e : Phys.Engine) (h : e.player = none) :
    e.getPlayerVelocity = { x := 0, y := 0 } ∧
    e.getPlayerPosition = { x := 0, y := 0 } ∧
    e.isPlayerFalling = false ∧
    e.isPlayerJumping = false ∧
    e.isPlayerGrounded = true := by
  simp [Phys.Engine.getPlayerVelocity, Phys.Engine.getPlayerPosition,
    Phys.Engine.isPlayerFalling, Phys.Engine.isPlayerJumping,
    Phys.Engine.isPlayerGrounded, h]

/-- C4 counterexample: on an engine with no player body, isPlayerGrounded
returns true (PhysicsEngine.js line 273), not the claimed false. -/
theorem c4_counterexample :
    Phys.emptyEngine.player = none ∧ Phys.emptyEngine.isPlayerGrounded ≠ false := by
  refine ⟨rfl, ?_⟩
  simp [Phys.emptyEngine, Phys.Engine.isPlayerGrounded]

/-- C4 witness: the amended defaults evaluated on the empty engine. -/
theorem c4_witness :
    Phys.emptyEngine.getPlayerVelocity = { x := 0, y := 0 } ∧
    Phys.emptyEngine.getPlayerPosition = { x := 0, y := 0 } ∧
    Phys.emptyEngine.isPlayerFalling = false ∧
    Phys.emptyEngine.isPlayerJumping = false ∧
    Phys.emptyEngine.isPlayerGrounded = true :=
  c4_missing_body_defaults Phys.emptyEngine rfl

/-- C5: isGrounded is false unconditionally while climbing; otherwise it is
true at feet height exactly 0, true within the landing tolerance of an
overlapped platform surface, and false for a body more than the 5-unit
ground tolerance up that is near no platform. -/
theorem isOnPlatform_iff (e : Phys.Engine) (b : Phys.Body) :
    e.isOnPlatform b = true ↔
      ∃ kv ∈ e.platforms, Phys.nearPlatformSurface b kv.2 := by
  rw [Phys.Engine.isOnPlatform, List.any_eq_true]
  unfold Phys.nearPlatformSurface
  simp only [Bool.and_eq_true, decide_eq_true_eq]
  tauto

theorem isGrounded_eq (e : Phys.Engine) (b : Phys.Body) :
    e.isGrounded b =
      (!e.playerClimbing && (decide (b.gameY ≤ 5) || e.isOnPlatform b)) := by
  rw [Phys.Engine.isGrounded]
  cases hc : e.playerClimbing <;> simp [hc, Phys.Body.gameY]

theorem c5_isGrounded_cases (e : Phys.Engine) (b : Phys.Body) :
    (e.playerClimbing = true → e.isGrounded b = false) ∧
    (e.playerClimbing = false → b.gameY = 0 → e.isGrounded b = true) ∧
    (e.playerClimbing = false →
      (∃ kv ∈ e.platforms, Phys.nearPlatformSurface b kv.2) →
      e.isGrounded b = true) ∧
    (e.playerClimbing = false → 5 < b.gameY →
      (∀ kv ∈ e.platforms, ¬ Phys.nearPlatformSurface b kv.2) →
      e.isGrounded b = false) := by
  refine ⟨fun hc => by simp [isGrounded_eq, hc], fun hc h0 => ?_,
    fun hc hex => ?_, fun hc h5 hall => ?_⟩
  · rw [isGrounded_eq, hc]
    norm_num [h0]
  · rw [isGrounded_eq, hc]
    simp only [Bool.not_false, Bool.true_and, Bool.or_eq_true]
    exact Or.inr ((isOnPlatform_iff e b).mpr hex)
  · have h1 : decide (b.gameY ≤ 5) = false := by
      simp [not_le.mpr h5]
    have h2 : e.isOnPlatform b = false := by
      cases hb : e.isOnPlatform b
      · rfl
      · obtain ⟨kv, hmem, hkv⟩ := (isOnPlatform_iff e b).mp hb
        exact absurd hkv (hall kv hmem)
    rw [isGrounded_eq, hc]
    simp [h1, h2]

/-- C5 witness: the four cases evaluated on concrete bodies: a climbing
engine, a body with feet exactly at ground height, a body standing on a
platform at height 180, and an airborne body at height 50 far from the
platform. -/
theorem c5_witness :
    Phys.Engine.isGrounded ⟨none, [], [], [], true⟩ ⟨0, -45/2, 0, 0, 30, 45⟩ = false ∧
    Phys.Engine.isGrounded ⟨none, [], [], [], false⟩ ⟨0, -45/2, 0, 0, 30, 45⟩ = true ∧
    Phys.Engine.isGrounded ⟨none, [(1, Phys.platformBody 0 180 200)], [1], [], false⟩
      ⟨50, -405/2, 0, 0, 30, 45⟩ = true ∧
    Phys.Engine.isGrounded ⟨none, [(1, Phys.platformBody 0 180 200)], [1], [], false⟩
      ⟨5000, -145/2, 0, 0, 30, 45⟩ = false := by
  refine ⟨(c5_isGrounded_cases _ _).1 rfl,
    (c5_isGrounded_cases _ _).2.1 rfl (by
      norm_num [Phys.Body.gameY, Phys.Body.boundsMaxY, Phys.Body.boundsMinY]),
    (c5_isGrounded_cases _ _).2.2.1 rfl
      ⟨(1, Phys.platformBody 0 180 200), by simp, by
        norm_num [Phys.nearPlatformSurface, Phys.platformBody,
          Phys.Body.boundsMinY, Phys.Body.boundsMaxY,
          Phys.Body.boundsMinX, Phys.Body.boundsMaxX]⟩,
    (c5_isGrounded_cases _ _).2.2.2 rfl (by
      norm_num [Phys.Body.gameY, Phys.Body.boundsMaxY, Phys.Body.boundsMinY])
      ?_⟩
  intro kv hmem
  simp only [List.mem_singleton] at hmem
  subst hmem
  norm_num [Phys.nearPlatformSurface, Phys.platformBody,
    Phys.Body.boundsMinY, Phys.Body.boundsMaxY,
    Phys.Body.boundsMinX, Phys.Body.boundsMaxX]

/-- The attackEnemy range filter unfolded to a proposition. -/
theorem attackInRange_eq_true_iff (fr : Bool) (p : Vec2) (r : ℚ) (e : Enemy) :
    attackInRange fr p r e = true ↔
      e.dying = false ∧
      -50 ≤ (if fr then e.worldX - p.x else p.x - e.worldX) ∧
      (if fr then e.worldX - p.x else p.x - e.worldX) ≤ r ∧
      |e.platformHeight - p.y| ≤ 50 := by
  cases fr <;>
  · simp only [attackInRange, Bool.false_eq_true, if_false, if_true]
    split_ifs with h1 h2 h3
    · simp [h1]
    · refine iff_of_false (by simp) ?_
      rintro ⟨-, hge, hle, -⟩
      simp only [Bool.or_eq_true, decide_eq_true_eq] at h2
      rcases h2 with h | h
      · exact absurd hle (not_le.mpr h)
      · exact absurd hge (not_le.mpr h)
    · refine iff_of_false (by simp) ?_
      rintro ⟨-, -, -, hy⟩
      exact absurd hy (not_le.mpr h3)
    · simp only [Bool.or_eq_true, decide_eq_true_eq, not_or] at h2
      refine iff_of_true rfl
        ⟨by simpa using h1, not_lt.mp h2.2, not_lt.mp h2.1, not_lt.mp h3⟩

/-- C6: the hit set of an attack event is exactly the non-dying enemies
whose signed distance ahead of the facing direction lies in [-50,
attackRange] with vertical distance at most 50; concretely, a player at
(100, 0) facing right with attackRange 100 hits the enemy at worldX 150 on
the ground and misses the one at worldX 400. -/
theorem c6_attack_hit_set (facingRight : Bool) (playerPos : Vec2)
    (attackRange : ℚ) (enemies : List Enemy) (e : Enemy) :
    (e ∈ attackHitSet facingRight playerPos attackRange enemies ↔
      e ∈ enemies ∧ e.dying = false ∧
      -50 ≤ (if facingRight then e.worldX - playerPos.x
             else playerPos.x - e.worldX) ∧
      (if facingRight then e.worldX - playerPos.x
       else playerPos.x - e.worldX) ≤ attackRange ∧
      |e.platformHeight - playerPos.y| ≤ 50) ∧
    attackHitSet true { x := 100, y := 0 } 100 [enemyAt 7 150, enemyAt 8 400] =
      [enemyAt 7 150] := by
  constructor
  · rw [attackHitSet, List.mem_filter, attackInRange_eq_true_iff]
  · norm_num [attackHitSet, attackInRange, enemyAt, List.filter]

/-- Once xp is below xpToNext the level-up loop stops, whatever fuel
remains. -/
theorem levelLoop_of_lt (s : LevelState) (h : s.xp < s.xpToNext) :
    ∀ fuel, levelLoop fuel s = s := by
  intro fuel
  cases fuel with
  | zero => rfl
  | succ f =>
    rw [levelLoop]
    rw [if_neg (by omega)]

/-- C2 (amended): from xp = 250, level = 1, xpToNext = 100 the loop runs
twice — 150 is not below the recomputed threshold 150, so a second iteration
fires — and terminates at level 3, xp 0, xpToNext 225, maxHealth 121,
baseDamage 11 (stable under any extra fuel); and health is set to the new
maxHealth exactly when at least one level was gained. -/
theorem c2_level_loop :
    (∀ k : ℕ, levelLoop (2 + k) c2Start = c2Final) ∧
    (∀ (prev : CharStats) (xpReward goldReward : ℤ) (fuel : ℕ),
      (applyKillReward prev xpReward goldReward fuel).health =
        if prev.level < (applyKillReward prev xpReward goldReward fuel).level
        then (applyKillReward prev xpReward goldReward fuel).maxHealth
        else prev.health) := by
  constructor
  · intro k
    have hstep : levelLoop (2 + k) c2Start = levelLoop k c2Final := by
      have h2 : 2 + k = k + 1 + 1 := by omega
      rw [h2]
      norm_num [levelLoop, c2Start, c2Final, xpForLevel, maxHealthForLevel,
        baseDamageForLevel]
    rw [hstep]
    exact levelLoop_of_lt _ (by norm_num [c2Final]) k
  · intro prev xpReward goldReward fuel
    simp [applyKillReward]

/-- C2 counterexample: the claim's terminal state (level 2, xp 150,
xpToNext 150) is not where the loop stops — at xp 150 and xpToNext 150 the
condition xp >= xpToNext still holds, so the loop iterates again and ends at
level 3, xp 0, xpToNext 225. -/
theorem c2_counterexample :
    ¬ ((levelLoop 5 c2Start).level = 2 ∧ (levelLoop 5 c2Start).xp = 150 ∧
        (levelLoop 5 c2Start).xpToNext = 150) ∧
    levelLoop 5 c2Start = c2Final := by
  have h : levelLoop 5 c2Start = c2Final := by
    norm_num [levelLoop, c2Start, c2Final, xpForLevel, maxHealthForLevel,
      baseDamageForLevel]
  refine ⟨?_, h⟩
  rw [h]
  rintro ⟨h2, -, -⟩
  exact absurd h2 (by norm_num [c2Final])

/-- The platform decision of the first generation pass has the same id-erased
layout whatever the id counter holds: spawn decision, width and offset come
only from the seeded draws. -/
theorem genPlat_opt_layout (rnd : ℤ → ℚ) (chunk : ℤ) (i : ℕ) (lvl : Level)
    (c1 c2 : ℕ) :
    ((genPlat rnd chunk i lvl c1).1.map Platform.layout) =
      ((genPlat rnd chunk i lvl c2).1.map Platform.layout) := by
  unfold genPlat
  split_ifs with h <;> simp [Platform.layout]

/-- Two optional platforms with the same id-erased layout list the same
layouts. -/
theorem toList_map_of_opt_layout {o1 o2 : Option Platform}
    (h : o1.map Platform.layout = o2.map Platform.layout) :
    o1.toList.map Platform.layout = o2.toList.map Platform.layout := by
  cases o1 <;> cases o2 <;> simp_all

/-- The ladder pass is id-blind: fed platforms and lower platforms agreeing
on their id-erased layouts, it emits ladders with the same id-erased layouts
whatever the id counters hold. -/
theorem genChunkLadder_opt_layout (rnd : ℤ → ℚ) (chunk : ℤ) (i : ℕ)
    (lvl lowerLvl : Level) (o1 o2 low1 low2 : Option Platform) (c1 c2 : ℕ)
    (ho : o1.map Platform.layout = o2.map Platform.layout)
    (hlow : low1.map Platform.layout = low2.map Platform.layout) :
    (genChunkLadder rnd chunk i lvl lowerLvl o1 low1 c1).1.map Ladder.layout =
      (genChunkLadder rnd chunk i lvl lowerLvl o2 low2 c2).1.map Ladder.layout := by
  cases o1 with
  | none =>
    cases o2 with
    | none => rfl
    | some q => simp [Platform.layout] at ho
  | some p =>
    cases o2 with
    | none => simp [Platform.layout] at ho
    | some q =>
      simp only [Option.map_some', Option.some.injEq, Platform.layout,
        Prod.mk.injEq] at ho
      obtain ⟨hx, -, hw, -⟩ := ho
      simp only [genChunkLadder]
      cases low1 with
      | none =>
        cases low2 with
        | none =>
          rw [hx, hw]
          split_ifs <;> simp [Ladder.layout]
        | some => simp [Platform.layout] at hlow
      | some r1 =>
        cases low2 with
        | none => simp [Platform.layout] at hlow
        | some r2 =>
          simp only [Option.map_some', Option.some.injEq, Platform.layout,
            Prod.mk.injEq] at hlow
          obtain ⟨hrx, -, hrw, -⟩ := hlow
          dsimp only
          rw [hx, hw, hrx, hrw]
          split_ifs <;> simp [Ladder.layout]

/-- Two runs of the chunk generator over the same chunk with different id
counters produce the same id-erased platform and ladder layouts. -/
theorem c7_layout_aux (rnd : ℤ → ℚ) (chunk : ℤ) (cnt1 cnt2 : ℕ) :
    ((genChunk rnd chunk cnt1).1.map Platform.layout =
      (genChunk rnd chunk cnt2).1.map Platform.layout) ∧
    ((genChunk rnd chunk cnt1).2.1.map Ladder.layout =
      (genChunk rnd chunk cnt2).2.1.map Ladder.layout) := by
  have h1 := genPlat_opt_layout rnd chunk 0 Level.level1 cnt1 cnt2
  have h2 := genPlat_opt_layout rnd chunk 1 Level.level2
    (genPlat rnd chunk 0 Level.level1 cnt1).2
    (genPlat rnd chunk 0 Level.level1 cnt2).2
  have h3 := genPlat_opt_layout rnd chunk 2 Level.level3
    (genPlat rnd chunk 1 Level.level2 (genPlat rnd chunk 0 Level.level1 cnt1).2).2
    (genPlat rnd chunk 1 Level.level2 (genPlat rnd chunk 0 Level.level1 cnt2).2).2
  constructor
  · simp only [genChunk, List.map_append]
    rw [toList_map_of_opt_layout h1, toList_map_of_opt_layout h2,
      toList_map_of_opt_layout h3]
  · simp only [genChunk, List.map_append]
    rw [genChunkLadder_opt_layout rnd chunk 0 Level.level1 Level.ground
        _ _ none none _ _ h1 rfl,
      genChunkLadder_opt_layout rnd chunk 1 Level.level2 Level.level1
        _ _ _ _ _ _ h2 h1,
      genChunkLadder_opt_layout rnd chunk 2 Level.level3 Level.level2
        _ _ _ _ _ _ h3 h2]

/-- C7: world generation is deterministic in the chunk index: seededRandom is
a pure function of its integer seed with values in [0, 1), and two runs of
the chunk generator over the same chunk under the same sine table produce the
same platform layout — spawn decision, width, horizontal offset and ladder
positions — even when the runs start from different global id counters (ids
are the only run-dependent output). -/
theorem c7_generation_deterministic :
    (∀ (sine : ℤ → ℚ) (seed : ℤ),
      0 ≤ seededRandom sine seed ∧ seededRandom sine seed < 1) ∧
    (∀ sine1 sine2 : ℤ → ℚ, (∀ n, sine1 n = sine2 n) →
      ∀ (chunk : ℤ) (cnt1 cnt2 : ℕ),
        ((genChunk (seededRandom sine1) chunk cnt1).1.map Platform.layout =
          (genChunk (seededRandom sine2) chunk cnt2).1.map Platform.layout) ∧
        ((genChunk (seededRandom sine1) chunk cnt1).2.1.map Ladder.layout =
          (genChunk (seededRandom sine2) chunk cnt2).2.1.map Ladder.layout)) := by
  constructor
  · intro sine seed
    show 0 ≤ Int.fract (sine (seed * 9999) * 10000) ∧
      Int.fract (sine (seed * 9999) * 10000) < 1
    exact ⟨Int.fract_nonneg _, Int.fract_lt_one _⟩
  · intro sine1 sine2 h chunk cnt1 cnt2
    have hs : sine1 = sine2 := funext h
    rw [hs]
    exact c7_layout_aux (seededRandom sine2) chunk cnt1 cnt2

/-- C7 witness: the range bound at the zero sine table, and the two-run
layout equality for runs of chunk 0 starting from id counters 0 and 5. -/
theorem c7_witness :
    (0 ≤ seededRandom (fun _ => 0) 1 ∧ seededRandom (fun _ => 0) 1 < 1) ∧
    (genChunk (seededRandom fun _ => 0) 0 0).1.map Platform.layout =
      (genChunk (seededRandom fun _ => 0) 0 5).1.map Platform.layout :=
  ⟨c7_generation_deterministic.1 (fun _ => 0) 1,
    (c7_generation_deterministic.2 (fun _ => 0) (fun _ => 0) (fun _ => rfl)
      0 0 5).1⟩

/-- C10: spawnEnemy returns the enemy collection unchanged whenever it
already holds MAX_ENEMIES = 10 or more enemies, and a spawn that returns
normally never grows a collection that was within the cap beyond 10. -/
theorem c10_spawn_cap (types : String → Option EnemyType)
    (physicsPresent : Bool) (enemies : List Enemy)
    (playerPosX scrollOffset width : ℚ) (platforms : List Platform)
    (r1 r2 r3 r4 : ℚ) (newId : ℕ) :
    (enemies.length ≥ 10 →
      spawnEnemy types physicsPresent enemies playerPosX scrollOffset width
        platforms r1 r2 r3 r4 newId = some enemies) ∧
    (∀ res, spawnEnemy types physicsPresent enemies playerPosX scrollOffset
        width platforms r1 r2 r3 r4 newId = some res →
      enemies.length ≤ 10 → res.length ≤ 10) := by
  constructor
  · intro h
    rw [spawnEnemy, if_pos (by simpa [MAX_ENEMIES] using h)]
  · intro res hres hlen
    by_cases hcap : enemies.length ≥ MAX_ENEMIES
    · rw [spawnEnemy, if_pos hcap] at hres
      cases hres
      exact hlen
    · have hlt : enemies.length < 10 := by
        simpa [MAX_ENEMIES] using hcap
      rw [spawnEnemy, if_neg hcap] at hres
      split at hres
      · cases hres; exact hlen
      · dsimp only [] at hres
        split at hres
        · exact absurd hres (by simp)
        · split at hres
          · exact absurd hres (by simp)
          · split at hres
            · exact absurd hres (by simp)
            · split at hres <;> cases hres <;>
                first
                | omega
                | (simp only [List.length_append, List.length_singleton]; omega)

/-- C10 witness: invoking spawnEnemy with a full population of ten enemies
returns the collection unchanged, still within the cap. -/
theorem c10_witness :
    spawnEnemy (fun _ => none) true tenEnemies 0 0 800 [] 0 0 0 0 99 =
      some tenEnemies ∧ tenEnemies.length ≤ 10 := by
  have h := c10_spawn_cap (fun _ => none) true tenEnemies 0 0 800 [] 0 0 0 0 99
  have hlen : tenEnemies.length = 10 := by simp [tenEnemies]
  have h1 := h.1 (by omega)
  exact ⟨h1, h.2 tenEnemies h1 (by omega)⟩

/-- C3 (amended): in the two states that hold a locked target (seeking and
attacking), if the locked id is absent from the enemy list or its enemy is
marked dying, one step of the state machine returns PATROL (moving right)
with a null target; in the PATROL state the machine instead re-acquires the
nearest live enemy. -/
theorem c3_dead_target_resets (prev : AISnapshot) (enemies : List Enemy)
    (playerPos : Vec2) (attackRange : ℚ) (isClimbing : Bool)
    (ladders : List Ladder) (t : ℕ)
    (hstate : prev.state = .movingToEnemy ∨ prev.state = .attackingEnemy)
    (htarget : prev.targetId = some t)
    (hdead : ∀ e ∈ enemies, e.id = t → e.dying = true) :
    computeAIState prev enemies playerPos attackRange isClimbing ladders =
      { state := .movingRight, targetId := none, keys := patrolKeys } := by
  have hfind : (enemies.find? fun e => e.id == t && !e.dying) = none := by
    rw [List.find?_eq_none]
    intro e he
    by_cases hid : e.id = t
    · simp [hdead e he hid]
    · simp [hid]
  rcases hstate with h | h <;>
    simp [computeAIState, h, htarget, hfind]

/-- C3 witness: from the attacking state locked on id 5, with the only
enemy of that id marked dying, the machine returns to patrol. -/
theorem c3_witness :
    computeAIState { state := .attackingEnemy, targetId := some 5 }
      [{ enemyAt 5 0 with dying := true }] { x := 0, y := 0 } 100 false [] =
      { state := .movingRight, targetId := none, keys := patrolKeys } :=
  c3_dead_target_resets _ _ _ _ _ _ 5 (Or.inr rfl) rfl
    (fun e he _ => by
      simp only [List.mem_singleton] at he
      rw [he])

/-- C3 counterexample: the claim quantifies over every AI state, but in the
PATROL state with a stale locked id (5, absent from the list) and a live
enemy present (id 7), one step returns SEEKING with target 7, not PATROL
with a null target. -/
theorem c3_counterexample :
    (enemyAt 7 0).id ≠ 5 ∧ (enemyAt 7 0).dying = false ∧
    (computeAIState { state := .movingRight, targetId := some 5 }
        [enemyAt 7 0] { x := 0, y := 0 } 100 false []).state =
      AIState.movingToEnemy ∧
    (computeAIState { state := .movingRight, targetId := some 5 }
        [enemyAt 7 0] { x := 0, y := 0 } 100 false []).targetId = some 7 := by
  refine ⟨by simp [enemyAt], rfl, ?_, ?_⟩ <;>
    simp [computeAIState, findNearestEnemy, List.mergeSort, enemyAt]

/-- Reachability is monotone under enlarging the platform and ladder
lists. -/
theorem reachableB_mono (ps ps2 : List Platform) (ls ls2 : List Ladder)
    (hp : ∀ p ∈ ps, p ∈ ps2) (hl : ∀ l ∈ ls, l ∈ ls2) :
    ∀ fuel pid, reachableB ps ls fuel pid = true →
      reachableB ps2 ls2 fuel pid = true := by
  intro fuel
  induction fuel with
  | zero => intro pid h; simp [reachableB] at h
  | succ f ih =>
    intro pid h
    rw [reachableB] at h ⊢
    rw [List.any_eq_true] at h ⊢
    obtain ⟨l, hlmem, hcond⟩ := h
    refine ⟨l, hl l hlmem, ?_⟩
    rw [Bool.and_eq_true] at hcond ⊢
    refine ⟨hcond.1, ?_⟩
    have h2 := hcond.2
    cases hb : l.bottomPlatformId with
    | none => rfl
    | some q =>
      rw [hb] at h2
      rw [Bool.and_eq_true] at h2 ⊢
      obtain ⟨hq, hr⟩ := h2
      refine ⟨?_, ih q hr⟩
      rw [List.any_eq_true] at hq ⊢
      obtain ⟨p, hpmem, hpq⟩ := hq
      exact ⟨p, hp p hpmem, hpq⟩

/-- A ladder from ground whose top is pid makes pid reachable. -/
theorem reach_via_ground_ladder (ps : List Platform) (ls : List Ladder)
    (l : Ladder) (pid f : ℕ) (hmem : l ∈ ls)
    (htop : l.topPlatformId = some pid) (hbot : l.bottomPlatformId = none) :
    reachableB ps ls (f + 1) pid = true := by
  rw [reachableB, List.any_eq_true]
  refine ⟨l, hmem, ?_⟩
  rw [Bool.and_eq_true]
  refine ⟨by simp [htop], ?_⟩
  rw [hbot]

/-- A ladder whose top is pid and whose bottom platform is present and
reachable makes pid reachable with one more unit of fuel. -/
theorem reach_via_step_ladder (ps : List Platform) (ls : List Ladder)
    (l : Ladder) (pid qid f : ℕ) (hmem : l ∈ ls)
    (htop : l.topPlatformId = some pid)
    (hbot : l.bottomPlatformId = some qid)
    (hq : ∃ p ∈ ps, p.id = qid)
    (hreach : reachableB ps ls f qid = true) :
    reachableB ps ls (f + 1) pid = true := by
  rw [reachableB, List.any_eq_true]
  refine ⟨l, hmem, ?_⟩
  rw [Bool.and_eq_true]
  refine ⟨by simp [htop], ?_⟩
  rw [hbot]
  rw [Bool.and_eq_true]
  obtain ⟨p, hpmem, hpid⟩ := hq
  exact ⟨List.any_eq_true.mpr ⟨p, hpmem, by simp [hpid]⟩, hreach⟩

/-- Every ladder list produced by the second generation pass for a present
platform contains a ladder topping out at that platform whose bottom is
either ground or the supplied lower platform. -/
theorem genChunkLadder_spec (rnd : ℤ → ℚ) (chunk : ℤ) (i : ℕ)
    (lvl lowerLvl : Level) (p : Platform) (lowerOpt : Option Platform)
    (cnt : ℕ) :
    ∃ l ∈ (genChunkLadder rnd chunk i lvl lowerLvl (some p) lowerOpt cnt).1,
      l.topPlatformId = some p.id ∧
        (l.bottomPlatformId = none ∨
          ∃ q, lowerOpt = some q ∧ l.bottomPlatformId = some q.id) := by
  simp only [genChunkLadder]
  by_cases hg : lowerLvl = Level.ground
  · simp [hg]
  · cases lowerOpt with
    | none => simp [hg]
    | some q =>
      by_cases hov : (40 : ℚ) ≤
          min (p.worldX + p.width) (q.worldX + q.width) -
            max p.worldX q.worldX
      · simp [hg, hov]
      · simp [hg, hov]

/-- Every platform of a freshly generated chunk is reachable from ground in
the generated world, with a ladder chain of depth at most 3. -/
theorem genChunk_reachable (rnd : ℤ → ℚ) (chunk : ℤ) (cnt : ℕ) :
    ∀ p ∈ (genChunk rnd chunk cnt).1,
      reachableB (genChunk rnd chunk cnt).1 (genChunk rnd chunk cnt).2.1 3
        p.id = true := by
  intro p hp
  simp only [genChunk] at hp ⊢
  set g1 := genPlat rnd chunk 0 Level.level1 cnt with hg1
  set g2 := genPlat rnd chunk 1 Level.level2 g1.2 with hg2
  set g3 := genPlat rnd chunk 2 Level.level3 g2.2 with hg3
  set L1 := genChunkLadder rnd chunk 0 Level.level1 Level.ground g1.1 none g3.2 with hL1
  set L2 := genChunkLadder rnd chunk 1 Level.level2 Level.level1 g2.1 g1.1 L1.2 with hL2
  set L3 := genChunkLadder rnd chunk 2 Level.level3 Level.level2 g3.1 g2.1 L2.2 with hL3
  set plats := g1.1.toList ++ g2.1.toList ++ g3.1.toList with hplats
  set lads := L1.1 ++ L2.1 ++ L3.1 with hlads
  have memL1 : ∀ l ∈ L1.1, l ∈ lads := fun l hl =>
    List.mem_append_left _ (List.mem_append_left _ hl)
  have memL2 : ∀ l ∈ L2.1, l ∈ lads := fun l hl =>
    List.mem_append_left _ (List.mem_append_right _ hl)
  have memL3 : ∀ l ∈ L3.1, l ∈ lads := fun l hl =>
    List.mem_append_right _ hl
  have memP1 : ∀ q, g1.1 = some q → q ∈ plats := by
    intro q hq
    exact List.mem_append_left _ (List.mem_append_left _ (by simp [hq]))
  have memP2 : ∀ q, g2.1 = some q → q ∈ plats := by
    intro q hq
    exact List.mem_append_left _ (List.mem_append_right _ (by simp [hq]))
  have hr1 : ∀ q, g1.1 = some q → ∀ f, reachableB plats lads (f + 1) q.id = true := by
    intro q hq f
    obtain ⟨l, hlmem, htop, hbotd⟩ :=
      genChunkLadder_spec rnd chunk 0 Level.level1 Level.ground q none g3.2
    rw [← hq] at hlmem
    rcases hbotd with hbot | ⟨q2, hq2, -⟩
    · exact reach_via_ground_ladder plats lads l q.id f (memL1 l hlmem) htop hbot
    · cases hq2
  have hr2 : ∀ q, g2.1 = some q → ∀ f, reachableB plats lads (f + 2) q.id = true := by
    intro q hq f
    obtain ⟨l, hlmem, htop, hbotd⟩ :=
      genChunkLadder_spec rnd chunk 1 Level.level2 Level.level1 q g1.1 L1.2
    rw [← hq] at hlmem
    rcases hbotd with hbot | ⟨q1, hq1, hbot⟩
    · exact reach_via_ground_ladder plats lads l q.id (f + 1) (memL2 l hlmem) htop hbot
    · exact reach_via_step_ladder plats lads l q.id q1.id (f + 1) (memL2 l hlmem)
        htop hbot ⟨q1, memP1 q1 hq1, rfl⟩ (hr1 q1 hq1 f)
  have hr3 : ∀ q, g3.1 = some q → ∀ f, reachableB plats lads (f + 3) q.id = true := by
    intro q hq f
    obtain ⟨l, hlmem, htop, hbotd⟩ :=
      genChunkLadder_spec rnd chunk 2 Level.level3 Level.level2 q g2.1 L2.2
    rw [← hq] at hlmem
    rcases hbotd with hbot | ⟨q2, hq2, hbot⟩
    · exact reach_via_ground_ladder plats lads l q.id (f + 2) (memL3 l hlmem) htop hbot
    · exact reach_via_step_ladder plats lads l q.id q2.id (f + 2) (memL3 l hlmem)
        htop hbot ⟨q2, memP2 q2 hq2, rfl⟩ (hr2 q2 hq2 f)
  rcases List.mem_append.mp hp with h12 | h3
  · rcases List.mem_append.mp h12 with h1 | h2
    · have hq : g1.1 = some p := by
        cases hx : g1.1 <;> simp [hx] at h1
        simp [h1]
      exact hr1 p hq 2
    · have hq : g2.1 = some p := by
        cases hx : g2.1 <;> simp [hx] at h2
        simp [h2]
      exact hr2 p hq 1
  · have hq : g3.1 = some p := by
      cases hx : g3.1 <;> simp [hx] at h3
      simp [h3]
    exact hr3 p hq 0

/-- C1 (amended): immediately after generation, every platform produced by
the chunk loop has a ladder path from ground (direct overlap connection to
the lower platform, or fallback straight from ground).  The periodic cleanup
does not preserve this: it can remove the lower platform of an overlap
ladder while keeping the upper platform (see the counterexample). -/
theorem c1_generated_platforms_reachable (rnd : ℤ → ℚ) (chunks : List ℤ)
    (cnt : ℕ) :
    ∀ p ∈ (genChunks rnd chunks cnt).1,
      reachableFromGround (genChunks rnd chunks cnt).1
        (genChunks rnd chunks cnt).2.1 p.id := by
  induction chunks generalizing cnt with
  | nil => intro p hp; simp [genChunks] at hp
  | cons c rest ih =>
    intro p hp
    simp only [genChunks] at hp ⊢
    rcases List.mem_append.mp hp with h | h
    · exact ⟨3, reachableB_mono _ _ _ _
        (fun x hx => List.mem_append_left _ hx)
        (fun x hx => List.mem_append_left _ hx) 3 p.id
        (genChunk_reachable rnd c cnt p h)⟩
    · obtain ⟨f, hf⟩ := ih (genChunk rnd c cnt).2.2 p h
      exact ⟨f, reachableB_mono _ _ _ _
        (fun x hx => List.mem_append_right _ hx)
        (fun x hx => List.mem_append_right _ hx) f p.id hf⟩

/-- C1 witness: in the single-chunk world generated by the admissible draw
table cexRnd, the level1 platform (id 1) is reachable from ground. -/
theorem c1_witness :
    reachableFromGround (genChunks cexRnd [1] 0).1
      (genChunks cexRnd [1] 0).2.1 1 :=
  c1_generated_platforms_reachable cexRnd [1] 0 c1FirstPlatform
    (by norm_num [genChunks, genChunk, genPlat, genChunkLadder, cexRnd,
      Level.height, c1FirstPlatform])

/-- C1 counterexample: after the cleanup pass at unrender limit 440, the
surviving world holds the level2 platform (id 2) and its overlap ladder, but
the ladder bottom platform (id 1) was removed, so no ladder path from ground
reaches platform 2 — the claimed invariant fails after cleanup.  All values
cexRnd takes lie in [0, 1), the range of seededRandom. -/
theorem c1_counterexample :
    c1Survivors.1 = [c1KeptPlatform] ∧
    c1Survivors.2 = [c1KeptLadder] ∧
    ¬ reachableFromGround c1Survivors.1 c1Survivors.2 2 := by
  have hp : c1Survivors.1 = [c1KeptPlatform] := by
    norm_num [c1Survivors, cleanupPlatforms, cleanupLadders, genChunk,
      genPlat, genChunkLadder, cexRnd, Level.height, List.filter,
      c1KeptPlatform]
  have hl : c1Survivors.2 = [c1KeptLadder] := by
    norm_num [c1Survivors, cleanupPlatforms, cleanupLadders, genChunk,
      genPlat, genChunkLadder, cexRnd, Level.height, List.filter,
      c1KeptLadder]
  refine ⟨hp, hl, ?_⟩
  rintro ⟨f, hf⟩
  rw [hp, hl] at hf
  cases f with
  | zero => simp [reachableB] at hf
  | succ f => simp [reachableB, c1KeptPlatform, c1KeptLadder] at hf

end IdleRpg
